import Mathlib

/-
Verification of the simulation engine of `simulation_significant_test`.

The development shallowly embeds the two core modules:
  * `src/simulate/generate.py` (distribution generators), and
  * `src/simulate/simulate.py` (the significance-test simulator and its
    trial strategies),
as pure Lean functions.  Python floats are modelled as rationals (ℚ),
Python ints as ℤ (or ℕ for counts), numpy arrays as lists, and Python
dictionaries as association lists.  Methods that can raise are embedded
as `Except String`-valued functions; methods that cannot raise are total.
External library calls (scipy/numpy random draws, transcendental pdfs,
quantile functions) are supplied abstractly through a `SciPy` record of
function-valued fields, mirroring how the source stores them in the
`funcs` dictionary of each generator; the only library function modelled
concretely is `stats.uniform.pdf`, whose closed form is elementary.
Per-trial test outcomes (which in the source arise from fresh random
samples fed to a scipy test function) are abstracted as an oracle
mapping the attempt number and the current sample sizes to a p-value.
-/

namespace SimTest

/-- Association-list model of a Python `dict` with string keys. -/
abbrev Dict (α : Type) : Type := List (String × α)

/-- Model of `dict.update` with a single key: replace the value when the
key is present, otherwise append the binding (insertion order is kept,
as in Python 3.7+ dictionaries). -/
def dictUpdate {α : Type} (d : Dict α) (k : String) (v : α) : Dict α :=
  if d.any (fun p => p.1 == k) then
    d.map (fun p => if p.1 == k then (k, v) else p)
  else
    d ++ [(k, v)]

/-- Model of a Python `dict` lookup, with a default for absent keys. -/
def dictGet {α : Type} (d : Dict α) (k : String) (v : α) : α :=
  ((d.find? (fun p => p.1 == k)).map (fun p => p.2)).getD v

/-- Model of Python `int()` applied to a rational: truncation toward
zero (which agrees with the floor on nonnegative arguments). -/
def pyInt (q : ℚ) : ℤ :=
  if q < 0 then -⌊-q⌋ else ⌊q⌋

/-- Model of `np.linspace(a, b, n)` with the default inclusive endpoint:
`n` evenly spaced points from `a` to `b`. -/
def linspace (a b : ℚ) (n : ℕ) : List ℚ :=
  (List.range n).map (fun i : ℕ => a + (i : ℚ) * ((b - a) / ((n - 1 : ℕ) : ℚ)))

/-- The runtime class of a generator object (`generate.py` defines one
base class and four concrete subclasses; `build_generator` dispatches on
a name string). -/
inductive GenKind : Type
  | base
  | norm
  | lognorm
  | uniform
  | gamma
deriving DecidableEq, Repr

/-- Embedding of the `GeneratorFunc` typed dictionary of
`src/utils/typing.py`: the `rand` sampling callable and the `stat_prob`
density callable stored by each concrete generator.  `rand` consumes the
parameter dictionary (including the `size` entry) and returns a sample;
`stat_prob` is applied pointwise to an x-coordinate together with the
parameter dictionary (the source passes the whole x-vector through the
dictionary; vectorized application is modelled as a map). -/
structure GeneratorFunc : Type where
  rand : Dict ℚ → List ℚ
  stat_prob : ℚ → Dict ℚ → ℚ

/-- The scipy/numpy library primitives used by `generate.py`, supplied
abstractly (they are external to the repository).  `stats.uniform.pdf`
is modelled concretely as `uniform_pdf` below. -/
structure SciPy : Type where
  norm_rvs : Dict ℚ → List ℚ
  norm_pdf : ℚ → Dict ℚ → ℚ
  norm_interval : Dict ℚ → ℚ × ℚ
  lognorm_rvs : Dict ℚ → List ℚ
  lognorm_pdf : ℚ → Dict ℚ → ℚ
  lognorm_ppf : Dict ℚ → ℚ
  uniform_rvs : Dict ℚ → List ℚ
  gamma_rvs : Dict ℚ → List ℚ
  gamma_pdf : ℚ → Dict ℚ → ℚ
  gamma_ppf : Dict ℚ → ℚ
  np_exp : ℚ → ℚ

/-- Concrete model of `stats.uniform.pdf`: density `1/scale` on
`[loc, loc + scale]` and `0` elsewhere (scipy defaults: `loc = 0`,
`scale = 1`). -/
def uniform_pdf (x : ℚ) (d : Dict ℚ) : ℚ :=
  let loc := dictGet d "loc" 0
  let scale := dictGet d "scale" 1
  if loc ≤ x ∧ x ≤ loc + scale then 1 / scale else 0

/-- Embedding of the `DistGenerator` object state (`generate.py`).
`funcs` is `none` for the base class, whose `__init__` declares the
attribute without assigning it; `func_param` and the name/type tags are
likewise unassigned in the base class and modelled by empty defaults. -/
structure DistGenerator : Type where
  kind : GenKind
  sample_size : ℤ
  funcs : Option GeneratorFunc
  func_param : Dict ℚ
  plot_prob : ℚ
  dist_name : String
  dist_type : String

/-- Embedding of `DistGenerator.__init__`: stores the sample size and
the default plot probability `0.999`; performs no validation and cannot
raise, hence always returns `.ok`. -/
def DistGenerator_init (sample_size : ℤ) : Except String DistGenerator :=
  .ok
    { kind := .base
      sample_size := sample_size
      funcs := none
      func_param := []
      plot_prob := 999 / 1000
      dist_name := ""
      dist_type := "" }

/-- Embedding of `NormGenerator.__init__`: stores scipy's normal
sampling and density callables and the parameter dictionary
`{loc: mu, scale: sigma}`; performs no validation (in particular none on
`sigma` or on the sample size) and always returns `.ok`. -/
def NormGenerator_init (sp : SciPy) (sample_size : ℤ) (mu sigma : ℚ) :
    Except String DistGenerator :=
  .ok
    { kind := .norm
      sample_size := sample_size
      funcs := some ⟨sp.norm_rvs, sp.norm_pdf⟩
      func_param := [("loc", mu), ("scale", sigma)]
      plot_prob := 999 / 1000
      dist_name := s!"Norm({mu}, {sigma})"
      dist_type := "continue" }

/-- Embedding of `LogNormGenerator.__init__`: plot probability lowered
to `0.95`, parameter dictionary `{scale: exp(mu), s: sigma}`; performs
no validation and always returns `.ok`. -/
def LogNormGenerator_init (sp : SciPy) (sample_size : ℤ) (mu sigma : ℚ) :
    Except String DistGenerator :=
  .ok
    { kind := .lognorm
      sample_size := sample_size
      funcs := some ⟨sp.lognorm_rvs, sp.lognorm_pdf⟩
      func_param := [("scale", sp.np_exp mu), ("s", sigma)]
      plot_prob := 95 / 100
      dist_name := s!"LogNorm({mu}, {sigma})"
      dist_type := "continue" }

/-- Embedding of `UniGenerator.__init__`: parameter dictionary
`{loc: a, scale: b - a}`; performs no validation and always returns
`.ok`. -/
def UniGenerator_init (sp : SciPy) (sample_size : ℤ) (a b : ℚ) :
    Except String DistGenerator :=
  .ok
    { kind := .uniform
      sample_size := sample_size
      funcs := some ⟨sp.uniform_rvs, uniform_pdf⟩
      func_param := [("loc", a), ("scale", b - a)]
      plot_prob := 999 / 1000
      dist_name := s!"Uni({a}, {b})"
      dist_type := "continue" }

/-- Embedding of `GammaGenerator.__init__`: parameter dictionary
`{a: alpha, scale: beta}`; performs no validation (in particular none on
`alpha` or `beta`) and always returns `.ok`. -/
def GammaGenerator_init (sp : SciPy) (sample_size : ℤ) (alpha beta : ℚ) :
    Except String DistGenerator :=
  .ok
    { kind := .gamma
      sample_size := sample_size
      funcs := some ⟨sp.gamma_rvs, sp.gamma_pdf⟩
      func_param := [("a", alpha), ("scale", beta)]
      plot_prob := 999 / 1000
      dist_name := s!"Gamma({alpha}, {beta})"
      dist_type := "continue" }

/-- Embedding of `DistGenerator.create_sample`: copies `func_param`,
adds the `size` entry to the copy only, and calls `funcs["rand"]`.  The
second component of the result is the generator state after the call
(the source mutates only the local copy, never `self`).  The base class
has no `funcs` attribute, which is modelled as an error. -/
def DistGenerator.create_sample (g : DistGenerator) :
    Except String (List ℚ) × DistGenerator :=
  match g.funcs with
  | none => (.error "AttributeError: funcs", g)
  | some funcs =>
    let param := dictUpdate g.func_param "size" (g.sample_size : ℚ)
    (.ok (funcs.rand param), g)

/-- Embedding of `plot_range`, dispatched on the runtime class as the
source's dynamic dispatch: the base class raises `NotImplementedError`;
`NormGenerator` returns `stats.norm.interval` at confidence
`plot_prob`; `LogNormGenerator` and `GammaGenerator` return
`(0, ppf(plot_prob))`; `UniGenerator` returns
`(loc, loc + scale)` exactly. -/
def DistGenerator.plot_range (sp : SciPy) (g : DistGenerator) :
    Except String (ℚ × ℚ) :=
  match g.kind with
  | .base => .error "NotImplementedError: Must override!!"
  | .norm => .ok (sp.norm_interval (dictUpdate g.func_param "confidence" g.plot_prob))
  | .lognorm => .ok (0, sp.lognorm_ppf (dictUpdate g.func_param "q" g.plot_prob))
  | .uniform =>
    .ok (dictGet g.func_param "loc" 0,
      dictGet g.func_param "loc" 0 + dictGet g.func_param "scale" 1)
  | .gamma => .ok (0, sp.gamma_ppf (dictUpdate g.func_param "q" g.plot_prob))

/-- Embedding of `DistGenerator.density_points`: computes the plot
range, lays out `delta` evenly spaced x-coordinates with `np.linspace`,
copies `func_param`, and evaluates `funcs["stat_prob"]` on each
x-coordinate.  The second component is the generator state after the
call (the source mutates only the local copy of `func_param`). -/
def DistGenerator.density_points (sp : SciPy) (g : DistGenerator) (delta : ℕ) :
    Except String (List ℚ × List ℚ) × DistGenerator :=
  match DistGenerator.plot_range sp g with
  | .error e => (.error e, g)
  | .ok ranges =>
    match g.funcs with
    | none => (.error "AttributeError: funcs", g)
    | some funcs =>
      let x_vec := linspace ranges.1 ranges.2 delta
      let param := g.func_param
      (.ok (x_vec, x_vec.map (fun t => funcs.stat_prob t param)), g)

/-- Embedding of `build_generator`: dispatch on the name string, with
the final line `return DistGenerator(**args)` reached for every
unrecognized name.  The two distribution parameters are passed
positionally (they stand for `mu, sigma` / `a, b` / `alpha, beta`). -/
def build_generator (sp : SciPy) (name : String) (sample_size : ℤ) (p1 p2 : ℚ) :
    Except String DistGenerator :=
  if name = "norm" then NormGenerator_init sp sample_size p1 p2
  else if name = "lognorm" then LogNormGenerator_init sp sample_size p1 p2
  else if name = "gamma" then GammaGenerator_init sp sample_size p1 p2
  else if name = "uniform" then UniGenerator_init sp sample_size p1 p2
  else DistGenerator_init sample_size

/-- Heterogeneous Python values stored in the simulator's `test_param`
dictionary (the `alternative` string, the `equal_var` flag, the
`popmean` float, sample arrays). -/
inductive PyVal : Type
  | str (s : String)
  | rat (q : ℚ)
  | bool (b : Bool)
  | arr (xs : List ℚ)
deriving DecidableEq, Repr

/-- Embedding of the `TestInfo` typed dictionary of
`src/utils/typing.py`. -/
structure TestInfo : Type where
  method : String
  alternative : String
  alpha : ℚ
deriving DecidableEq, Repr

/-- The scipy test function selected by a simulator's constructor and
stored in `test_funcs` (a tag standing for the library callable). -/
inductive TestFuncTag : Type
  | ttest_ind
  | ttest_rel
  | ttest_1samp
  | mannwhitneyu
  | wilcoxon
  | brunnermunzel
deriving DecidableEq, Repr

/-- Embedding of the `StatTestSimulator` object state (`simulate.py`).
`test_funcs` is `none` for the base class, whose `__init__` declares the
attribute without assigning it.  `p_values` models the numpy result
array of length `iters`.  The global RNG seeding (`set_seed`) has no
observable effect in this model, where per-trial test outcomes are an
explicit oracle. -/
structure StatTestSimulator : Type where
  test_funcs : Option TestFuncTag
  test_info : TestInfo
  test_type : String
  test_param : Dict PyVal
  generators : List DistGenerator
  iters : ℕ
  p_values : List ℚ

/-- Embedding of `StatTestSimulator.__init__`: stores the test
information, the trial strategy, the parameter dictionary seeded with
the `alternative` entry, the generators, and a zero-filled p-value
array of length `iters`. -/
def StatTestSimulator_init (test_info : TestInfo) (generators : List DistGenerator)
    (iters : ℕ) (test_type : String) : StatTestSimulator :=
  { test_funcs := none
    test_info := test_info
    test_type := test_type
    test_param := [("alternative", PyVal.str test_info.alternative)]
    generators := generators
    iters := iters
    p_values := List.replicate iters 0 }

/-- Embedding of `StatTestSimulator.per_signicant`:
`np.count_nonzero(self.p_values < self.test_info["alpha"]) / self.iters`,
the count of recorded p-values strictly below `alpha` divided by
`iters`. -/
def per_signicant (s : StatTestSimulator) : ℚ :=
  ((s.p_values.countP (fun p => decide (p < s.test_info.alpha)) : ℕ) : ℚ) /
    ((s.iters : ℕ) : ℚ)

/-- Embedding of `TTestSimulator.__init__`: after the base
initialization, dispatch on `test_info["method"]` to select the scipy
test function (adding `equal_var=False` for Welch and `popmean=mu` for
the one-sample test), raising `ValueError` on any other method name. -/
def TTestSimulator_init (test_info : TestInfo) (generators : List DistGenerator)
    (iters : ℕ) (test_type : String) (mu : ℚ) : Except String StatTestSimulator :=
  let s := StatTestSimulator_init test_info generators iters test_type
  if s.test_info.method = "welch" then
    .ok { s with
      test_funcs := some .ttest_ind
      test_param := dictUpdate s.test_param "equal_var" (PyVal.bool false) }
  else if s.test_info.method = "student" then
    .ok { s with test_funcs := some .ttest_ind }
  else if s.test_info.method = "paired" then
    .ok { s with test_funcs := some .ttest_rel }
  else if s.test_info.method = "one-sample" then
    .ok { s with
      test_funcs := some .ttest_1samp
      test_param := dictUpdate s.test_param "popmean" (PyVal.rat mu) }
  else
    .error "t test method must be [welch, student, paired, one-sample]"

/-- Embedding of `WilcoxonTestSimulator.__init__`: dispatch on
`test_info["method"]` between `mannwhitneyu` (method `normal`) and
`wilcoxon` (method `paired`), raising `ValueError` on any other method
name (the source's message begins `t test` even for this family). -/
def WilcoxonTestSimulator_init (test_info : TestInfo) (generators : List DistGenerator)
    (iters : ℕ) (test_type : String) : Except String StatTestSimulator :=
  let s := StatTestSimulator_init test_info generators iters test_type
  if s.test_info.method = "normal" then
    .ok { s with test_funcs := some .mannwhitneyu }
  else if s.test_info.method = "paired" then
    .ok { s with test_funcs := some .wilcoxon }
  else
    .error "t test method must be [normal, paired]"

/-- Embedding of `BrunnerMunzelTestSimulator.__init__`: assigns
`stats.brunnermunzel` unconditionally — the method name is never
examined and no branch raises. -/
def BrunnerMunzelTestSimulator_init (test_info : TestInfo)
    (generators : List DistGenerator) (iters : ℕ) (test_type : String) :
    Except String StatTestSimulator :=
  let s := StatTestSimulator_init test_info generators iters test_type
  .ok { s with test_funcs := some .brunnermunzel }

/-- Embedding of `build_simulator`: dispatch on the test name, with the
final line `return StatTestSimulator(**args)` reached for every
unrecognized name (the base constructor cannot raise). -/
def build_simulator (name : String) (test_info : TestInfo)
    (generators : List DistGenerator) (iters : ℕ) (test_type : String) (mu : ℚ) :
    Except String StatTestSimulator :=
  if name = "t_test" then
    TTestSimulator_init test_info generators iters test_type mu
  else if name = "wilcoxon_test" then
    WilcoxonTestSimulator_init test_info generators iters test_type
  else if name = "brunner_munzel_test" then
    BrunnerMunzelTestSimulator_init test_info generators iters test_type
  else
    .ok (StatTestSimulator_init test_info generators iters test_type)

/-- The sample sizes of a simulator's generators, in order (the values
of the `sample_size` snapshot dictionary built by `add_sample_patch`). -/
def sample_sizes (s : StatTestSimulator) : List ℤ :=
  s.generators.map (fun g => g.sample_size)

/-- A per-trial test-outcome oracle: `draws k ns` is the p-value
produced by the `k`-th `sample_update`-plus-`test_funcs` call of the
current patch when the generators' sample sizes are `ns`.  This
abstracts the composition of fresh random sampling and the scipy test
call, which lives outside the repository. -/
abbrev DrawOracle : Type := ℕ → List ℤ → ℚ

/-- Embedding of `StatTestSimulator.basic_patch`: one sampling-and-test
call, whose p-value is recorded at `idx`.  The second component counts
the sampling-and-test calls performed. -/
def basic_patch (s : StatTestSimulator) (idx : ℕ) (draws : DrawOracle) :
    StatTestSimulator × ℕ :=
  ({ s with p_values := s.p_values.set idx (draws 0 (sample_sizes s)) }, 1)

/-- The `for _ in range(n)` loop of `another_test_patch`: each pass
draws and tests once and exits early (`break`) when the p-value falls
strictly below `alpha`; afterwards the last p-value drawn is recorded.
Arguments: remaining passes, number of calls made so far, last p-value
drawn.  Returns (total calls, recorded p-value). -/
def test_attempt_loop (alpha : ℚ) (draws : ℕ → ℚ) :
    ℕ → ℕ → ℚ → ℕ × ℚ
  | 0, k, last => (k, last)
  | fuel + 1, k, _ =>
    let pvalue := draws k
    if pvalue < alpha then (k + 1, pvalue)
    else test_attempt_loop alpha draws fuel (k + 1) pvalue

/-- Embedding of `StatTestSimulator.another_test_patch`: up to two
sampling-and-test calls with early exit on significance; the last
p-value drawn is recorded at `idx`.  The sample sizes never change
during this patch, so every call sees `sample_sizes s`. -/
def another_test_patch (s : StatTestSimulator) (idx : ℕ) (draws : DrawOracle) :
    StatTestSimulator × ℕ :=
  let r := test_attempt_loop s.test_info.alpha (fun k => draws k (sample_sizes s)) 2 0 0
  ({ s with p_values := s.p_values.set idx r.2 }, r.1)

/-- The sample-size growth step of `add_sample_patch`:
`generator.sample_size = int(add_sample_ratio * generator.sample_size)`. -/
def grow_sample_size (add_sample_ratio : ℚ) (g : DistGenerator) : DistGenerator :=
  { g with sample_size := pyInt (add_sample_ratio * (g.sample_size : ℚ)) }

/-- Embedding of `StatTestSimulator.add_sample_patch`: snapshot every
generator's sample size, draw and test once; when the p-value is `≥
alpha`, grow every generator's sample size by `add_sample_ratio`
(truncated to an integer), draw and test a second time at the grown
sizes, and restore each generator's sample size from the snapshot; the
last test result's p-value is recorded at `idx`.  The second component
counts the sampling-and-test calls performed.  (The source's default
`add_sample_ratio` is `1.1`, passed here explicitly as `11/10`.) -/
def add_sample_patch (s : StatTestSimulator) (idx : ℕ)
    (add_sample_ratio : ℚ) (draws : DrawOracle) : StatTestSimulator × ℕ :=
  let sample_size := sample_sizes s
  let p1 := draws 0 sample_size
  if p1 ≥ s.test_info.alpha then
    let gens1 := s.generators.map (grow_sample_size add_sample_ratio)
    let p2 := draws 1 (gens1.map (fun g => g.sample_size))
    let gens2 := List.zipWith (fun g n => { g with sample_size := n }) gens1 sample_size
    ({ s with generators := gens2, p_values := s.p_values.set idx p2 }, 2)
  else
    ({ s with p_values := s.p_values.set idx p1 }, 1)

/-- Embedding of `StatTestSimulator.execute`: dispatch on `test_type`
to a patch and run it for every trial index `0 .. iters - 1` in order.
The trial oracle gives each trial its own attempt-level oracle.  An
unrecognized `test_type` falls into the source's `else: pass` branch,
after which the call of the unbound `batch_func` raises; that branch is
modelled as leaving the state unchanged. -/
def execute (s : StatTestSimulator) (trial_draws : ℕ → DrawOracle) :
    StatTestSimulator :=
  (List.range s.iters).foldl
    (fun st idx =>
      if st.test_type = "basic" then (basic_patch st idx (trial_draws idx)).1
      else if st.test_type = "another_test" then
        (another_test_patch st idx (trial_draws idx)).1
      else if st.test_type = "add_sample" then
        (add_sample_patch st idx (11 / 10) (trial_draws idx)).1
      else st)
    s

/-- Whether an embedded call completed without raising. -/
def completesOk {α : Type} (e : Except String α) : Bool :=
  match e with
  | .ok _ => true
  | .error _ => false

/-- A trivial concrete instantiation of the abstract scipy primitives,
used for evaluating the embedding on concrete inputs. -/
def sp0 : SciPy :=
  { norm_rvs := fun _ => []
    norm_pdf := fun _ _ => 0
    norm_interval := fun _ => (0, 0)
    lognorm_rvs := fun _ => []
    lognorm_pdf := fun _ _ => 0
    lognorm_ppf := fun _ => 0
    uniform_rvs := fun _ => []
    gamma_rvs := fun _ => []
    gamma_pdf := fun _ _ => 0
    gamma_ppf := fun _ => 0
    np_exp := fun _ => 1 }

/-- A concrete test configuration: Welch test, two-sided, `alpha = 0.05`. -/
def ti0 : TestInfo := { method := "welch", alternative := "two-sided", alpha := 1 / 20 }

/-- The function dictionary stored by `UniGenerator.__init__` under
`sp0`. -/
def uniFuncs01 : GeneratorFunc := ⟨sp0.uniform_rvs, uniform_pdf⟩

/-- The concrete generator produced by `UniGenerator(50, 0, 1)`
under `sp0`. -/
def uniGen01 : DistGenerator :=
  { kind := .uniform
    sample_size := 50
    funcs := some uniFuncs01
    func_param := [("loc", 0), ("scale", 1)]
    plot_prob := 999 / 1000
    dist_name := "Uni(0, 1)"
    dist_type := "continue" }

/-- A freshly constructed concrete simulator with three iterations. -/
def simFresh : StatTestSimulator := StatTestSimulator_init ti0 [uniGen01] 3 "basic"

/-- A concrete simulator state as left by a completed run: three
recorded p-values `0, 1/20, 1/10` against `alpha = 1/20`. -/
def simRun : StatTestSimulator := { simFresh with p_values := [0, 1 / 20, 1 / 10] }

/-- A test-outcome oracle whose first attempt is significant at
`alpha = 1/20`. -/
def drawsHit : DrawOracle := fun k _ => if k = 0 then 1 / 100 else 1 / 2

/-- A test-outcome oracle whose first attempt is non-significant at
`alpha = 1/20` and whose second attempt is even less significant. -/
def drawsMiss : DrawOracle := fun k _ => if k = 0 then 1 / 10 else 1 / 2

/-- The uniform generator with its sample size lowered to `5`. -/
def gFive : DistGenerator := { uniGen01 with sample_size := 5 }

theorem countP_eq_card_range_filter (l : List ℚ) (p : ℚ → Prop) [DecidablePred p] :
    l.countP (fun x => decide (p x)) =
      ((Finset.range l.length).filter (fun i => p (l.getD i 0))).card := by
  induction l with
  | nil => simp
  | cons a l ih =>
    rw [List.countP_cons, List.length_cons, Finset.card_filter, Finset.sum_range_succ']
    rw [Finset.card_filter] at ih
    simp only [List.getD_cons_succ, List.getD_cons_zero, ← ih]
    by_cases h : p a <;> simp [h]

/-- C1: after a completed run (result array of length `iters`),
`per_signicant` returns exactly the number of trial indices whose
recorded p-value is strictly below `alpha`, divided by `iters`; an
index whose p-value equals `alpha` does not satisfy the strict
inequality and is counted as non-significant. -/
theorem per_signicant_fraction_strictly_below (s : StatTestSimulator)
    (h : s.p_values.length = s.iters) :
    per_signicant s =
      ((((Finset.range s.iters).filter
          (fun i => s.p_values.getD i 0 < s.test_info.alpha)).card : ℕ) : ℚ) /
        ((s.iters : ℕ) : ℚ) := by
  unfold per_signicant
  rw [countP_eq_card_range_filter s.p_values (fun x => x < s.test_info.alpha), h]

/-- Witness for C1 on the concrete run `simRun`: one of the three
p-values (`0`) lies strictly below `alpha = 1/20`, the value equal to
`alpha` is not counted, and `per_signicant` returns `1/3`. -/
theorem per_signicant_fraction_strictly_below_witness :
    simRun.p_values.length = simRun.iters ∧
    per_signicant simRun =
      ((((Finset.range simRun.iters).filter
          (fun i => simRun.p_values.getD i 0 < simRun.test_info.alpha)).card : ℕ) : ℚ) /
        ((simRun.iters : ℕ) : ℚ) ∧
    per_signicant simRun = 1 / 3 :=
  ⟨rfl, per_signicant_fraction_strictly_below simRun rfl, by
    norm_num [per_signicant, simRun, simFresh, StatTestSimulator_init, ti0,
      List.countP, List.countP.go]⟩

/-- C2 counterexample: on a freshly constructed engine (`execute` not
yet called) with `alpha = 1/20` and three iterations, `per_signicant`
neither raises (the embedded call is total) nor returns `0`: every
zero placeholder lies strictly below `alpha`, so it returns `1`. -/
theorem per_signicant_before_execute_returns_one :
    per_signicant simFresh = 1 ∧ per_signicant simFresh ≠ 0 := by
  constructor <;>
    norm_num [per_signicant, simFresh, StatTestSimulator_init, ti0,
      List.replicate, List.countP, List.countP.go]

/-- C2 amended: the freshly constructed engine's p-value array is the
zero-filled array of length `iters`, and `per_signicant` called before
`execute` deterministically returns `1` (not `0`) whenever
`0 < alpha` and `0 < iters`, because every zero placeholder counts as
strictly below `alpha`. -/
theorem init_zero_filled_per_signicant_one (test_info : TestInfo)
    (generators : List DistGenerator) (iters : ℕ) (test_type : String)
    (halpha : 0 < test_info.alpha) (hiters : 0 < iters) :
    (StatTestSimulator_init test_info generators iters test_type).p_values =
      List.replicate iters 0 ∧
    per_signicant (StatTestSimulator_init test_info generators iters test_type) = 1 := by
  refine ⟨rfl, ?_⟩
  unfold per_signicant StatTestSimulator_init
  have hcount : ∀ n : ℕ,
      (List.replicate n (0 : ℚ)).countP (fun p => decide (p < test_info.alpha)) = n := by
    intro n
    induction n with
    | zero => rfl
    | succ n ih => rw [List.replicate_succ, List.countP_cons, ih]; simp [halpha]
  simp only [hcount]
  exact div_self (by exact_mod_cast hiters.ne')

/-- Witness for the amended C2 on the concrete fresh engine `simFresh`
(`alpha = 1/20 > 0`, `iters = 3 > 0`). -/
theorem init_zero_filled_per_signicant_one_witness :
    (0 : ℚ) < ti0.alpha ∧ 0 < 3 ∧
    (StatTestSimulator_init ti0 [uniGen01] 3 "basic").p_values = List.replicate 3 0 ∧
    per_signicant (StatTestSimulator_init ti0 [uniGen01] 3 "basic") = 1 :=
  ⟨by norm_num [ti0], by norm_num,
    (init_zero_filled_per_signicant_one ti0 [uniGen01] 3 "basic"
      (by norm_num [ti0]) (by norm_num)).1,
    (init_zero_filled_per_signicant_one ti0 [uniGen01] 3 "basic"
      (by norm_num [ti0]) (by norm_num)).2⟩

theorem test_attempt_loop_two (alpha : ℚ) (draws : ℕ → ℚ) :
    test_attempt_loop alpha draws 2 0 0 =
      if draws 0 < alpha then (1, draws 0) else (2, draws 1) := by
  have e1 : test_attempt_loop alpha draws 2 0 0 =
      (if draws 0 < alpha then (1, draws 0)
       else test_attempt_loop alpha draws 1 1 (draws 0)) := rfl
  rw [e1]
  by_cases h0 : draws 0 < alpha
  · rw [if_pos h0, if_pos h0]
  · rw [if_neg h0, if_neg h0]
    have e2 : test_attempt_loop alpha draws 1 1 (draws 0) =
        (if draws 1 < alpha then (2, draws 1)
         else test_attempt_loop alpha draws 0 2 (draws 1)) := rfl
    have e3 : test_attempt_loop alpha draws 0 2 (draws 1) = (2, draws 1) := rfl
    rw [e2, e3]
    split <;> rfl

/-- C3: under `another_test_patch`, when the first attempt's p-value is
strictly below `alpha` exactly one sampling-and-test call occurs and
that first p-value is recorded at `idx`; otherwise exactly two calls
occur and the second attempt's p-value is recorded unconditionally (the
record does not depend on any comparison of the second p-value with
`alpha` or with the first). -/
theorem another_test_patch_retry_once (s : StatTestSimulator) (idx : ℕ)
    (draws : DrawOracle) :
    (draws 0 (sample_sizes s) < s.test_info.alpha →
      another_test_patch s idx draws =
        ({ s with p_values := s.p_values.set idx (draws 0 (sample_sizes s)) }, 1)) ∧
    (¬ draws 0 (sample_sizes s) < s.test_info.alpha →
      another_test_patch s idx draws =
        ({ s with p_values := s.p_values.set idx (draws 1 (sample_sizes s)) }, 2)) := by
  unfold another_test_patch
  rw [test_attempt_loop_two]
  constructor <;> intro h
  · rw [if_pos h]
  · rw [if_neg h]

/-- Witness for C3 on concrete oracles: with a significant first
attempt the patch performs one call and records it; with a
non-significant first attempt it performs two calls and records the
second p-value (`1/2`) even though it is larger than the first
(`1/10`). -/
theorem another_test_patch_retry_once_witness :
    drawsHit 0 (sample_sizes simFresh) < simFresh.test_info.alpha ∧
    another_test_patch simFresh 0 drawsHit =
      ({ simFresh with
        p_values := simFresh.p_values.set 0 (drawsHit 0 (sample_sizes simFresh)) }, 1) ∧
    ¬ drawsMiss 0 (sample_sizes simFresh) < simFresh.test_info.alpha ∧
    drawsMiss 0 (sample_sizes simFresh) < drawsMiss 1 (sample_sizes simFresh) ∧
    another_test_patch simFresh 0 drawsMiss =
      ({ simFresh with
        p_values := simFresh.p_values.set 0 (drawsMiss 1 (sample_sizes simFresh)) }, 2) :=
  ⟨by norm_num [drawsHit, simFresh, StatTestSimulator_init, ti0],
    (another_test_patch_retry_once simFresh 0 drawsHit).1
      (by norm_num [drawsHit, simFresh, StatTestSimulator_init, ti0]),
    by norm_num [drawsMiss, simFresh, StatTestSimulator_init, ti0],
    by norm_num [drawsMiss],
    (another_test_patch_retry_once simFresh 0 drawsMiss).2
      (by norm_num [drawsMiss, simFresh, StatTestSimulator_init, ti0])⟩

theorem restore_from_snapshot (ratio : ℚ) (gens : List DistGenerator) :
    List.zipWith (fun g n => { g with sample_size := n })
      (gens.map (grow_sample_size ratio)) (gens.map (fun g => g.sample_size)) = gens := by
  induction gens with
  | nil => rfl
  | cons g gens ih =>
    simp only [List.map_cons, List.zipWith_cons_cons, ih, grow_sample_size]

/-- C4: under `add_sample_patch`, when the first attempt's p-value is
below `alpha` the patch performs one sampling-and-test call, records
that p-value, and leaves every generator untouched; otherwise it
performs a second call at the grown sizes `int(ratio * size)` obtained
by `grow_sample_size`, records the second p-value, and restores every
generator from the snapshot.  In both cases the generators after the
patch equal the generators before it. -/
theorem add_sample_patch_grow_restore (s : StatTestSimulator) (idx : ℕ)
    (ratio : ℚ) (draws : DrawOracle) :
    ((add_sample_patch s idx ratio draws).1.generators = s.generators) ∧
    (draws 0 (sample_sizes s) < s.test_info.alpha →
      add_sample_patch s idx ratio draws =
        ({ s with p_values := s.p_values.set idx (draws 0 (sample_sizes s)) }, 1)) ∧
    (¬ draws 0 (sample_sizes s) < s.test_info.alpha →
      add_sample_patch s idx ratio draws =
        ({ s with
          p_values := s.p_values.set idx
            (draws 1 ((s.generators.map (grow_sample_size ratio)).map
              (fun g => g.sample_size))) }, 2)) := by
  have key : add_sample_patch s idx ratio draws =
      if s.test_info.alpha ≤ draws 0 (sample_sizes s) then
        ({ s with
            p_values := s.p_values.set idx
              (draws 1 ((s.generators.map (grow_sample_size ratio)).map
                (fun g => g.sample_size))) }, 2)
      else
        ({ s with p_values := s.p_values.set idx (draws 0 (sample_sizes s)) }, 1) := by
    simp only [add_sample_patch, ge_iff_le, sample_sizes, restore_from_snapshot]
  refine ⟨?_, ?_, ?_⟩
  · rw [key]; split <;> rfl
  · intro h; rw [key, if_neg (not_le.2 h)]
  · intro h; rw [key, if_pos (not_lt.1 h)]

/-- Witness for C4 on a concrete non-significant first attempt: the
second call is made at the grown sizes, the second p-value is recorded,
and the generators (sample size `50`) come back unchanged. -/
theorem add_sample_patch_grow_restore_witness :
    ¬ drawsMiss 0 (sample_sizes simFresh) < simFresh.test_info.alpha ∧
    (add_sample_patch simFresh 0 (11 / 10) drawsMiss).1.generators =
      simFresh.generators ∧
    add_sample_patch simFresh 0 (11 / 10) drawsMiss =
      ({ simFresh with
        p_values := simFresh.p_values.set 0
          (drawsMiss 1 ((simFresh.generators.map (grow_sample_size (11 / 10))).map
            (fun g => g.sample_size))) }, 2) :=
  ⟨by norm_num [drawsMiss, simFresh, StatTestSimulator_init, ti0],
    (add_sample_patch_grow_restore simFresh 0 (11 / 10) drawsMiss).1,
    (add_sample_patch_grow_restore simFresh 0 (11 / 10) drawsMiss).2.2
      (by norm_num [drawsMiss, simFresh, StatTestSimulator_init, ti0])⟩

/-- C5 counterexample: constructing a normal generator with sample
size `0` and `sigma = -1`, a gamma generator with `alpha = -1` and
`beta = 0`, and a base generator with sample size `0`, all complete
without raising — no configuration error is surfaced at construction
time. -/
theorem constructors_accept_invalid_params :
    completesOk (NormGenerator_init sp0 0 0 (-1)) = true ∧
    completesOk (GammaGenerator_init sp0 50 (-1) 0) = true ∧
    completesOk (DistGenerator_init 0) = true :=
  ⟨rfl, rfl, rfl⟩

/-- C5 amended: none of the generator constructors validates its
arguments — every constructor completes without raising for every
sample size and every parameter value (including sample sizes below 1
and non-positive scale/shape parameters), so any failure is deferred to
sampling time. -/
theorem constructors_never_validate (sp : SciPy) (sample_size : ℤ)
    (mu sigma a b alpha beta : ℚ) :
    completesOk (DistGenerator_init sample_size) = true ∧
    completesOk (NormGenerator_init sp sample_size mu sigma) = true ∧
    completesOk (LogNormGenerator_init sp sample_size mu sigma) = true ∧
    completesOk (UniGenerator_init sp sample_size a b) = true ∧
    completesOk (GammaGenerator_init sp sample_size alpha beta) = true :=
  ⟨rfl, rfl, rfl, rfl, rfl⟩

/-- C6 counterexample: `build_generator` called with the unsupported
name `"bogus"` completes without raising and returns the base-class
generator, and `build_simulator` with name `"bogus"` likewise completes
and returns the base simulator — neither fails with a configuration
error at the call. -/
theorem build_unknown_name_no_error :
    completesOk (build_generator sp0 "bogus" 50 0 1) = true ∧
    build_generator sp0 "bogus" 50 0 1 = DistGenerator_init 50 ∧
    completesOk (build_simulator "bogus" ti0 [uniGen01] 10 "basic" 0) = true ∧
    build_simulator "bogus" ti0 [uniGen01] 10 "basic" 0 =
      .ok (StatTestSimulator_init ti0 [uniGen01] 10 "basic") := by
  refine ⟨?_, ?_, ?_, ?_⟩ <;> rfl

/-- C6 amended: for every name outside the supported set,
`build_generator` falls through to the base `DistGenerator` constructor
and `build_simulator` falls through to the base `StatTestSimulator`
constructor; both return a base object without error (the base objects
defer failure to use: their `funcs`/`test_funcs` attributes are
unassigned). -/
theorem build_unknown_falls_through (sp : SciPy) (name : String) (sample_size : ℤ)
    (p1 p2 : ℚ) (test_info : TestInfo) (gens : List DistGenerator) (iters : ℕ)
    (test_type : String) (mu : ℚ)
    (hg : name ∉ (["norm", "lognorm", "gamma", "uniform"] : List String))
    (hs : name ∉ (["t_test", "wilcoxon_test", "brunner_munzel_test"] : List String)) :
    build_generator sp name sample_size p1 p2 = DistGenerator_init sample_size ∧
    (build_generator sp name sample_size p1 p2).map (fun g => g.funcs) =
      .ok none ∧
    build_simulator name test_info gens iters test_type mu =
      .ok (StatTestSimulator_init test_info gens iters test_type) ∧
    (StatTestSimulator_init test_info gens iters test_type).test_funcs = none := by
  simp only [List.mem_cons, List.not_mem_nil, or_false, not_or] at hg hs
  obtain ⟨hg1, hg2, hg3, hg4⟩ := hg
  obtain ⟨hs1, hs2, hs3⟩ := hs
  refine ⟨?_, ?_, ?_, rfl⟩
  · unfold build_generator
    rw [if_neg hg1, if_neg hg2, if_neg hg3, if_neg hg4]
  · unfold build_generator
    rw [if_neg hg1, if_neg hg2, if_neg hg3, if_neg hg4]
    rfl
  · unfold build_simulator
    rw [if_neg hs1, if_neg hs2, if_neg hs3]

/-- Witness for the amended C6 at the concrete unsupported name
`"bogus"`. -/
theorem build_unknown_falls_through_witness :
    ("bogus" ∉ (["norm", "lognorm", "gamma", "uniform"] : List String)) ∧
    ("bogus" ∉ (["t_test", "wilcoxon_test", "brunner_munzel_test"] : List String)) ∧
    (build_generator sp0 "bogus" 50 0 1 = DistGenerator_init 50 ∧
      (build_generator sp0 "bogus" 50 0 1).map (fun g => g.funcs) = .ok none ∧
      build_simulator "bogus" ti0 [uniGen01] 10 "basic" 0 =
        .ok (StatTestSimulator_init ti0 [uniGen01] 10 "basic") ∧
      (StatTestSimulator_init ti0 [uniGen01] 10 "basic").test_funcs = none) :=
  ⟨by decide, by decide,
    build_unknown_falls_through sp0 "bogus" 50 0 1 ti0 [uniGen01] 10 "basic" 0
      (by decide) (by decide)⟩

/-- C7 counterexample: the Brunner-Munzel simulator constructor never
examines the method name — constructing it with the unsupported method
`"bogus"` completes without raising, so this family does not reject
methods outside its valid set. -/
theorem brunner_munzel_accepts_any_method :
    completesOk (BrunnerMunzelTestSimulator_init
      { method := "bogus", alternative := "two-sided", alpha := 1 / 20 }
      [uniGen01] 10 "basic") = true :=
  rfl

/-- C7 amended: the t-test constructor succeeds exactly on the methods
`welch`, `student`, `paired`, `one-sample` and otherwise raises a
`ValueError` whose message names that set; the Wilcoxon/rank-sum
constructor succeeds exactly on `normal`, `paired` and otherwise raises
a `ValueError` whose message names that set (though it mislabels the
family as `t test`); the Brunner-Munzel constructor accepts every
method name and never raises. -/
theorem method_dispatch_exact (test_info : TestInfo) (gens : List DistGenerator)
    (iters : ℕ) (test_type : String) (mu : ℚ) :
    (completesOk (TTestSimulator_init test_info gens iters test_type mu) = true ↔
      test_info.method ∈ (["welch", "student", "paired", "one-sample"] : List String)) ∧
    (test_info.method ∉ (["welch", "student", "paired", "one-sample"] : List String) →
      TTestSimulator_init test_info gens iters test_type mu =
        .error "t test method must be [welch, student, paired, one-sample]") ∧
    (completesOk (WilcoxonTestSimulator_init test_info gens iters test_type) = true ↔
      test_info.method ∈ (["normal", "paired"] : List String)) ∧
    (test_info.method ∉ (["normal", "paired"] : List String) →
      WilcoxonTestSimulator_init test_info gens iters test_type =
        .error "t test method must be [normal, paired]") ∧
    completesOk (BrunnerMunzelTestSimulator_init test_info gens iters test_type) =
      true := by
  unfold TTestSimulator_init WilcoxonTestSimulator_init BrunnerMunzelTestSimulator_init
  simp only [List.mem_cons, List.not_mem_nil, or_false, not_or]
  refine ⟨?_, ?_, ?_, ?_, rfl⟩ <;>
    · split_ifs <;> simp_all [completesOk, StatTestSimulator_init]

/-- Witness for the amended C7: the t-test constructor rejects the
method `"bogus"` with the message naming its valid set, while the
Brunner-Munzel constructor accepts it. -/
theorem method_dispatch_exact_witness :
    (("bogus" : String) ∉ (["welch", "student", "paired", "one-sample"] : List String)) ∧
    TTestSimulator_init
        { method := "bogus", alternative := "two-sided", alpha := 1 / 20 }
        [uniGen01] 10 "basic" 0 =
      .error "t test method must be [welch, student, paired, one-sample]" :=
  ⟨by decide,
    (method_dispatch_exact
        { method := "bogus", alternative := "two-sided", alpha := 1 / 20 }
        [uniGen01] 10 "basic" 0).2.1 (by decide)⟩

theorem linspace_length (a b : ℚ) (n : ℕ) : (linspace a b n).length = n := by
  unfold linspace
  rw [List.length_map, List.length_range]

theorem linspace_getD (a b : ℚ) (n i : ℕ) (hi : i < n) :
    (linspace a b n).getD i 0 = a + (i : ℚ) * ((b - a) / ((n - 1 : ℕ) : ℚ)) := by
  unfold linspace
  rw [List.getD_eq_getElem?_getD, List.getElem?_map, List.getElem?_range hi]
  rfl

theorem uniform_pdf_nonneg (x : ℚ) (d : Dict ℚ) : 0 ≤ uniform_pdf x d := by
  simp only [uniform_pdf]
  split
  · rename_i h
    refine one_div_nonneg.2 ?_
    have h1 := h.1
    have h2 := h.2
    linarith
  · exact le_refl 0

/-- C8: for every generator whose `plot_range` returns `(low, high)`
with `low < high`, and whose density callable is pointwise nonnegative
(as every scipy pdf is), `density_points` with `delta ≥ 2` points
returns arrays `x` and `y` of length `delta`, where `x` consists of
evenly spaced points from `low` to `high` inclusive, `x` is strictly
increasing, and every `y` value is nonnegative. -/
theorem density_points_spec (sp : SciPy) (g : DistGenerator)
    (gfuncs : GeneratorFunc) (low high : ℚ) (delta : ℕ)
    (hf : g.funcs = some gfuncs)
    (hr : DistGenerator.plot_range sp g = .ok (low, high))
    (hlh : low < high) (hdelta : 2 ≤ delta)
    (hpdf : ∀ t, 0 ≤ gfuncs.stat_prob t g.func_param) :
    ∃ x y,
      (DistGenerator.density_points sp g delta).1 = .ok (x, y) ∧
      x.length = delta ∧ y.length = delta ∧
      (∀ i, i < delta →
        x.getD i 0 = low + (i : ℚ) * ((high - low) / ((delta - 1 : ℕ) : ℚ))) ∧
      x.getD 0 0 = low ∧
      x.getD (delta - 1) 0 = high ∧
      (∀ i j, i < j → j < delta → x.getD i 0 < x.getD j 0) ∧
      (∀ v ∈ y, 0 ≤ v) := by
  have hpos : (0 : ℚ) < ((delta - 1 : ℕ) : ℚ) := by
    have h1 : 0 < delta - 1 := by omega
    exact_mod_cast h1
  have hstep : 0 < (high - low) / ((delta - 1 : ℕ) : ℚ) :=
    div_pos (sub_pos.2 hlh) hpos
  refine ⟨linspace low high delta,
    (linspace low high delta).map (fun t => gfuncs.stat_prob t g.func_param),
    ?_, linspace_length low high delta, by simp [linspace_length], ?_, ?_, ?_, ?_, ?_⟩
  · unfold DistGenerator.density_points
    rw [hr, hf]
  · intro i hi
    exact linspace_getD low high delta i hi
  · rw [linspace_getD low high delta 0 (by omega)]
    simp
  · rw [linspace_getD low high delta (delta - 1) (by omega)]
    rw [mul_comm, div_mul_cancel₀ _ hpos.ne']
    ring
  · intro i j hij hj
    rw [linspace_getD low high delta i (by omega), linspace_getD low high delta j hj]
    have hc : (i : ℚ) < (j : ℚ) := by exact_mod_cast hij
    have := mul_lt_mul_of_pos_right hc hstep
    linarith
  · intro v hv
    obtain ⟨t, _, rfl⟩ := List.mem_map.1 hv
    exact hpdf t

/-- Witness for C8 on the concrete generator `UniGenerator(50, 0, 1)`:
its plot range `(0, 1)` satisfies `low < high`, its density
(`stats.uniform.pdf`) is pointwise nonnegative, and `density_points`
with three points enjoys all the stated properties. -/
theorem density_points_spec_witness :
    uniGen01.funcs = some uniFuncs01 ∧
    DistGenerator.plot_range sp0 uniGen01 = .ok (0, 1) ∧
    (0 : ℚ) < 1 ∧ 2 ≤ 3 ∧
    (∀ t, 0 ≤ uniFuncs01.stat_prob t uniGen01.func_param) ∧
    (∃ x y,
      (DistGenerator.density_points sp0 uniGen01 3).1 = .ok (x, y) ∧
      x.length = 3 ∧ y.length = 3 ∧
      (∀ i, i < 3 →
        x.getD i 0 = 0 + (i : ℚ) * ((1 - 0) / ((3 - 1 : ℕ) : ℚ))) ∧
      x.getD 0 0 = 0 ∧
      x.getD (3 - 1) 0 = 1 ∧
      (∀ i j, i < j → j < 3 → x.getD i 0 < x.getD j 0) ∧
      (∀ v ∈ y, 0 ≤ v)) :=
  ⟨rfl,
    by simp [DistGenerator.plot_range, uniGen01, dictGet, List.find?],
    by norm_num, by norm_num,
    fun t => uniform_pdf_nonneg t uniGen01.func_param,
    density_points_spec sp0 uniGen01 uniFuncs01 0 1 3 rfl
      (by simp [DistGenerator.plot_range, uniGen01, dictGet, List.find?])
      (by norm_num) (by norm_num)
      (fun t => uniform_pdf_nonneg t uniGen01.func_param)⟩

/-- C9: `create_sample` and `density_points` leave the generator's
configuration unchanged — `func_param`, `sample_size` and `plot_prob`
hold the same values after the call as before, because both methods
mutate only a local copy of `func_param`. -/
theorem create_sample_density_points_frame (sp : SciPy) (g : DistGenerator)
    (delta : ℕ) :
    ((DistGenerator.create_sample g).2.func_param = g.func_param ∧
     (DistGenerator.create_sample g).2.sample_size = g.sample_size ∧
     (DistGenerator.create_sample g).2.plot_prob = g.plot_prob) ∧
    ((DistGenerator.density_points sp g delta).2.func_param = g.func_param ∧
     (DistGenerator.density_points sp g delta).2.sample_size = g.sample_size ∧
     (DistGenerator.density_points sp g delta).2.plot_prob = g.plot_prob) := by
  unfold DistGenerator.create_sample DistGenerator.density_points
  constructor
  · cases g.funcs <;> exact ⟨rfl, rfl, rfl⟩
  · cases DistGenerator.plot_range sp g <;> cases g.funcs <;> exact ⟨rfl, rfl, rfl⟩

/-- C10: the enlarged sample size `int(add_sample_ratio * sample_size)`
is not strictly larger than the original in general: with the default
ratio `1.1`, for every generator whose sample size `n` satisfies
`1 ≤ n ≤ 9` the grown size equals `n` exactly, so the second attempt of
the grow-sample strategy redraws at an unchanged sample size. -/
theorem grow_sample_size_unchanged_small (g : DistGenerator)
    (h1 : 1 ≤ g.sample_size) (h9 : g.sample_size ≤ 9) :
    (grow_sample_size (11 / 10) g).sample_size = g.sample_size := by
  unfold grow_sample_size pyInt
  have hn0 : (0 : ℚ) ≤ (g.sample_size : ℚ) := by
    have h0 : (0 : ℤ) ≤ g.sample_size := by omega
    exact_mod_cast h0
  rw [if_neg (not_lt.2 (mul_nonneg (by norm_num) hn0))]
  rw [Int.floor_eq_iff]
  constructor
  · have : ((g.sample_size : ℚ)) ≤ 11 / 10 * (g.sample_size : ℚ) := by linarith
    exact_mod_cast this
  · have h9q : (g.sample_size : ℚ) ≤ 9 := by exact_mod_cast h9
    linarith

/-- Witness for C10 at sample size `5`: `int(1.1 * 5) = int(5.5) = 5`. -/
theorem grow_sample_size_unchanged_small_witness :
    (1 ≤ gFive.sample_size ∧ gFive.sample_size ≤ 9) ∧
    (grow_sample_size (11 / 10) gFive).sample_size = gFive.sample_size ∧
    gFive.sample_size = 5 :=
  ⟨⟨by decide, by decide⟩,
    grow_sample_size_unchanged_small gFive (by decide) (by decide), rfl⟩

end SimTest
